import Mathlib

-- Batteries marks the `Rat` arithmetic operations `@[irreducible]`, which
-- blocks kernel evaluation of the embedded code on concrete inputs; restore
-- reducibility so that `decide` can evaluate the executable definitions below.
set_option allowUnsafeReducibility true in
attribute [semireducible] Rat.mul Rat.add Rat.sub Rat.inv Rat.ofScientific

/-!
Shallow embedding of the document classification and rule-validation core of
the Hack-Personal repository (services/rule_validation_engine.py and
services/sample_based_classifier.py), together with theorems settling the
frozen claims about it.

Modelling conventions:
* Python floats are modelled as rationals (`ℚ`); Python `round(x, n)`
  (round-half-even to `n` decimal digits) is `py_round x n`.
* A Python dict value that can be missing or `None` is an `Option`; where the
  code distinguishes a missing key (replaced by a default) from a present
  `None` value (which makes a method call raise), we use `Option (Option _)`:
  `none` = key missing, `some none` = key present with value `None`.
* A rule predicate is `Doc → Except String Bool`; `.error msg` models the
  predicate raising an exception with message `msg`.
-/

namespace HackPersonal

/-- Round-half-even of a rational to an integer, as Python `round` does. -/
def round_half_even (q : ℚ) : ℤ :=
  let fl := ⌊q⌋
  let frac := q - fl
  if frac < 1/2 then fl
  else if 1/2 < frac then fl + 1
  else if fl % 2 = 0 then fl else fl + 1

/-- Python `round(q, ndigits)` on (exact decimal) rationals. -/
def py_round (q : ℚ) (ndigits : ℕ) : ℚ :=
  let scale : ℚ := (10 : ℚ) ^ ndigits
  (round_half_even (q * scale) : ℚ) / scale

/-- Python truthiness of an optional string (`None` and `""` are falsy). -/
def truthy : Option String → Bool
  | some s => s != ""
  | none => false

/-- `str.lower()` (ASCII), written over the character list so that the kernel
can evaluate it. -/
def lower_string (s : String) : String :=
  String.mk (s.data.map Char.toLower)

-- ============================================
-- Data model of the attribute bag (models.py enums + the dict keys read by
-- rule_validation_engine.py)
-- ============================================

/-- `models.DocumentType` -/
inductive DocumentType
  | BILL_OF_LADING
  | PROOF_OF_DELIVERY
  | PACKING_LIST
  | COMMERCIAL_INVOICE
  | HAZMAT_DOCUMENT
  | LUMPER_RECEIPT
  | TRIP_SHEET
  | FREIGHT_INVOICE
  | UNKNOWN
deriving DecidableEq

/-- `models.ValidationStatus` -/
inductive ValidationStatus
  | PASS
  | FAIL
  | NEEDS_REVIEW
  | PENDING
deriving DecidableEq

/-- Rule severity: `"hard"` or `"soft"` in the source tables. -/
inductive Severity
  | hard
  | soft
deriving DecidableEq

/-- The `metadata["doc_type_fields"]` sub-dict.  Every field the rule tables
read is a string-valued key; `condition` is three-state because
`POD_006` calls `.lower()` on it (a present `None` raises there). -/
structure DocTypeFields where
  invoice_number : Option String := none
  invoice_date : Option String := none
  ship_date : Option String := none
  delivery_date : Option String := none
  date : Option String := none
  bol_number : Option String := none
  order_number : Option String := none
  shipper : Option String := none
  consignee : Option String := none
  origin : Option String := none
  destination : Option String := none
  freight_terms : Option String := none
  total_weight : Option String := none
  delivered_to : Option String := none
  condition : Option (Option String) := none
  total_amount : Option String := none
  seller : Option String := none
  buyer : Option String := none
  payment_terms : Option String := none
  total_cartons : Option String := none
  gross_weight : Option String := none
  un_number : Option String := none
  shipping_name : Option String := none
  hazard_class : Option String := none
  emergency_contact : Option String := none
  packing_group : Option String := none
  trip_number : Option String := none
  driver_name : Option String := none
  total_miles : Option String := none
  truck_number : Option String := none
  pro_number : Option String := none
  total_charges : Option String := none
  carrier_name : Option String := none
  amount : Option String := none
  service_type : Option String := none
deriving DecidableEq

/-- The `metadata["field_extraction_validation"]` sub-dict.
`extraction_score` present as `None` raises in `GEN_006` (`None >= 0.50`). -/
structure FieldExtractionValidation where
  extraction_score : Option (Option ℚ) := none
deriving DecidableEq

/-- The `metadata` sub-dict. Both sub-keys are three-state: `.get(k, {})`
yields `{}` when missing but `None` when present with value `None`, and a
subsequent `.get` on `None` raises. -/
structure Metadata where
  doc_type_fields : Option (Option DocTypeFields) := none
  field_extraction_validation : Option (Option FieldExtractionValidation) := none
deriving DecidableEq

/-- The flat attribute bag handed to `validate_document`. -/
structure Doc where
  document_type : Option DocumentType := none
  quality_score : Option ℚ := none
  ocr_text : Option (Option String) := none
  classification_confidence : Option ℚ := none
  is_blurry : Option Bool := none
  document_date : Option String := none
  signature_count : Option (Option ℤ) := none
  order_number : Option String := none
  invoice_number : Option String := none
  metadata : Option (Option Metadata) := none
deriving DecidableEq

/-- `doc.get("metadata", {}).get("doc_type_fields", {})`:
`.ok none` models reaching the empty-dict default (all field lookups miss);
`.error` models the `AttributeError` raised by `.get` on `None`. -/
def get_dtf (doc : Doc) : Except String (Option DocTypeFields) :=
  match doc.metadata with
  | none => .ok none
  | some none => .error "NoneType object has no attribute get"
  | some (some m) =>
    match m.doc_type_fields with
    | none => .ok none
    | some none => .error "NoneType object has no attribute get"
    | some (some dtf) => .ok (some dtf)

/-- `doc.get("metadata", {}).get("doc_type_fields", {}).get(field)`. -/
def dtf_field (doc : Doc) (f : DocTypeFields → Option String) :
    Except String (Option String) :=
  (get_dtf doc).map (fun o => o.bind f)

/-- `(doc.get("signature_count") or 0)`. -/
def sig_count (doc : Doc) : ℤ :=
  match doc.signature_count with
  | some (some n) => n
  | _ => 0

/-- `doc.get("signature_count", 0)` rendered by `str.format` for the
`{count}` placeholder. -/
def count_repr (doc : Doc) : String :=
  match doc.signature_count with
  | none => "0"
  | some none => "None"
  | some (some n) => toString n

-- ============================================
-- Rule tables (GENERAL_RULES and DOC_SPECIFIC_RULES)
-- ============================================

/-- One entry of the rule tables.  `category` is `none` for
document-type-specific rules (their dicts carry no "category" key). -/
structure Rule where
  rule_id : String
  name : String
  check : Doc → Except String Bool
  fail_reason : String
  severity : Severity
  category : Option String

/-- A failed-rule entry as appended to `hard_failures` / `soft_warnings`. -/
structure Finding where
  rule_id : String
  name : String
  reason : String
  category : String
deriving DecidableEq

/-- `bool(doc...doc_type_fields.get(f))` as a rule predicate. -/
def dtf_present (f : DocTypeFields → Option String) : Doc → Except String Bool :=
  fun doc => (dtf_field doc f).map truthy

/-- `bool(doc.get("order_number") or ...doc_type_fields.get("order_number"))`
with Python `or` short-circuiting (the raising metadata chain is only touched
when the top-level key is falsy). -/
def order_number_check : Doc → Except String Bool :=
  fun doc =>
    if truthy doc.order_number then .ok true
    else (dtf_field doc (·.order_number)).map truthy

/-- `(doc.get("signature_count") or 0) >= n`. -/
def sig_at_least (n : ℤ) : Doc → Except String Bool :=
  fun doc => .ok (decide (n ≤ sig_count doc))

def gen_001 : Rule :=
  { rule_id := "GEN_001"
    name := "Image Quality Check"
    check := fun doc => .ok (decide ((55 : ℚ) ≤ doc.quality_score.getD 0))
    fail_reason := "Document image quality too low (< 55%). Please re-upload a clearer photo."
    severity := .hard
    category := some "quality" }

def gen_002 : Rule :=
  { rule_id := "GEN_002"
    name := "Minimum Text Extracted"
    check := fun doc =>
      match doc.ocr_text with
      | none => .ok (decide (50 ≤ ("" : String).length))
      | some none => .error "object of type NoneType has no len"
      | some (some s) => .ok (decide (50 ≤ s.length))
    fail_reason := "Could not extract enough text (< 50 characters). Document may be blank or unreadable."
    severity := .hard
    category := some "quality" }

def gen_003 : Rule :=
  { rule_id := "GEN_003"
    name := "Document Type Identified"
    check := fun doc => .ok (decide ((1/2 : ℚ) ≤ doc.classification_confidence.getD 0))
    fail_reason := "Document type could not be identified confidently. Manual review needed."
    severity := .hard
    category := some "classification" }

def gen_004 : Rule :=
  { rule_id := "GEN_004"
    name := "Not Severely Blurry"
    check := fun doc =>
      .ok (!(doc.is_blurry == some true && decide (doc.quality_score.getD 0 < (60 : ℚ))))
    fail_reason := "Document is too blurry. Please re-upload a clearer image."
    severity := .hard
    category := some "quality" }

def gen_005 : Rule :=
  { rule_id := "GEN_005"
    name := "Date Present"
    check := fun doc =>
      -- bool(document_date or dtf.invoice_date or dtf.ship_date or
      --      dtf.delivery_date or dtf.date), with `or` short-circuiting
      if truthy doc.document_date then .ok true
      else do
        let inv ← dtf_field doc (·.invoice_date)
        if truthy inv then pure true
        else do
          let ship ← dtf_field doc (·.ship_date)
          if truthy ship then pure true
          else do
            let del ← dtf_field doc (·.delivery_date)
            if truthy del then pure true
            else do
              let d ← dtf_field doc (·.date)
              pure (truthy d)
    fail_reason := "No date found on document. Date is required for tracking."
    severity := .soft
    category := some "data" }

def gen_006 : Rule :=
  { rule_id := "GEN_006"
    name := "Extraction Completeness"
    check := fun doc =>
      match doc.metadata with
      | none => .ok (decide ((1/2 : ℚ) ≤ 0))
      | some none => .error "NoneType object has no attribute get"
      | some (some m) =>
        match m.field_extraction_validation with
        | none => .ok (decide ((1/2 : ℚ) ≤ 0))
        | some none => .error "NoneType object has no attribute get"
        | some (some f) =>
          match f.extraction_score with
          | none => .ok (decide ((1/2 : ℚ) ≤ 0))
          | some none => .error "comparison not supported between NoneType and float"
          | some (some q) => .ok (decide ((1/2 : ℚ) ≤ q))
    fail_reason := "Less than 50% of required fields could be read from document."
    severity := .soft
    category := some "data" }

def general_rules : List Rule :=
  [gen_001, gen_002, gen_003, gen_004, gen_005, gen_006]

def bol_rules : List Rule :=
  [ { rule_id := "BOL_001", name := "Requires 2 Signatures"
      check := sig_at_least 2
      fail_reason := "BOL must have minimum 2 signatures (shipper + carrier). Found {count}."
      severity := .hard, category := none }
  , { rule_id := "BOL_002", name := "BOL Number Present"
      check := dtf_present (·.bol_number)
      fail_reason := "BOL number is missing. This is required for tracking."
      severity := .hard, category := none }
  , { rule_id := "BOL_003", name := "Order/Load Number Present"
      check := order_number_check
      fail_reason := "Order or Load number is missing."
      severity := .hard, category := none }
  , { rule_id := "BOL_004", name := "Shipper Name Present"
      check := dtf_present (·.shipper)
      fail_reason := "Shipper name is missing."
      severity := .hard, category := none }
  , { rule_id := "BOL_005", name := "Consignee Name Present"
      check := dtf_present (·.consignee)
      fail_reason := "Consignee name is missing."
      severity := .hard, category := none }
  , { rule_id := "BOL_006", name := "Origin and Destination Present"
      check := fun doc => do
        let o ← dtf_field doc (·.origin)
        if truthy o then do
          let d ← dtf_field doc (·.destination)
          pure (truthy d)
        else pure false
      fail_reason := "Origin or Destination location is missing."
      severity := .soft, category := none }
  , { rule_id := "BOL_007", name := "Freight Terms Specified"
      check := dtf_present (·.freight_terms)
      fail_reason := "Freight terms (Prepaid/Collect) not specified."
      severity := .soft, category := none }
  , { rule_id := "BOL_008", name := "Weight Present"
      check := dtf_present (·.total_weight)
      fail_reason := "Total weight is missing."
      severity := .soft, category := none } ]

def pod_rules : List Rule :=
  [ { rule_id := "POD_001", name := "Consignee Signature Required"
      check := sig_at_least 1
      fail_reason := "POD must have consignee signature to confirm delivery."
      severity := .hard, category := none }
  , { rule_id := "POD_002", name := "Order Number Present"
      check := order_number_check
      fail_reason := "Order/Load number is missing on POD."
      severity := .hard, category := none }
  , { rule_id := "POD_003", name := "Delivery Date Present"
      check := dtf_present (·.delivery_date)
      fail_reason := "Delivery date is missing."
      severity := .hard, category := none }
  , { rule_id := "POD_004", name := "Delivered To Name Present"
      check := dtf_present (·.delivered_to)
      fail_reason := "Recipient name is missing."
      severity := .soft, category := none }
  , { rule_id := "POD_005", name := "Delivery Condition Noted"
      check := fun doc =>
        -- bool(...get("condition")): a present None is merely falsy here
        (get_dtf doc).map (fun o =>
          match o.bind (·.condition) with
          | some (some s) => s != ""
          | _ => false)
      fail_reason := "Delivery condition (Good/Damaged) not noted."
      severity := .soft, category := none }
  , { rule_id := "POD_006", name := "No Damage Reported"
      check := fun doc =>
        -- ...get("condition", "").lower() not in ["damaged","refused","partial"]
        match get_dtf doc with
        | .error e => .error e
        | .ok o =>
          match o.bind (·.condition) with
          | none => .ok (decide (lower_string "" ∉ ["damaged", "refused", "partial"]))
          | some none => .error "NoneType object has no attribute lower"
          | some (some s) => .ok (decide (lower_string s ∉ ["damaged", "refused", "partial"]))
      fail_reason := "⚠️ Delivery condition shows damage or refusal - escalate for review."
      severity := .soft, category := none } ]

def inv_rules : List Rule :=
  [ { rule_id := "INV_001", name := "Invoice Number Present"
      check := fun doc =>
        if truthy doc.invoice_number then .ok true
        else (dtf_field doc (·.invoice_number)).map truthy
      fail_reason := "Invoice number is missing."
      severity := .hard, category := none }
  , { rule_id := "INV_002", name := "Order Number Present"
      check := order_number_check
      fail_reason := "Order/PO number is missing."
      severity := .hard, category := none }
  , { rule_id := "INV_003", name := "Total Amount Present"
      check := dtf_present (·.total_amount)
      fail_reason := "Invoice total amount is missing."
      severity := .hard, category := none }
  , { rule_id := "INV_004", name := "Seller and Buyer Present"
      check := fun doc => do
        let s ← dtf_field doc (·.seller)
        if truthy s then do
          let b ← dtf_field doc (·.buyer)
          pure (truthy b)
        else pure false
      fail_reason := "Seller or Buyer name is missing."
      severity := .hard, category := none }
  , { rule_id := "INV_005", name := "Payment Terms Present"
      check := dtf_present (·.payment_terms)
      fail_reason := "Payment terms are missing."
      severity := .soft, category := none }
  , { rule_id := "INV_006", name := "Invoice Date Present"
      check := dtf_present (·.invoice_date)
      fail_reason := "Invoice date is missing."
      severity := .soft, category := none } ]

def pkg_rules : List Rule :=
  [ { rule_id := "PKG_001", name := "Order Number Present"
      check := order_number_check
      fail_reason := "Order number is missing on packing list."
      severity := .hard, category := none }
  , { rule_id := "PKG_002", name := "Total Cartons Present"
      check := dtf_present (·.total_cartons)
      fail_reason := "Total carton count is missing."
      severity := .hard, category := none }
  , { rule_id := "PKG_003", name := "Weight Present"
      check := dtf_present (·.gross_weight)
      fail_reason := "Gross weight is missing."
      severity := .soft, category := none }
  , { rule_id := "PKG_004", name := "Destination Present"
      check := dtf_present (·.destination)
      fail_reason := "Destination is missing."
      severity := .soft, category := none } ]

def haz_rules : List Rule :=
  [ { rule_id := "HAZ_001", name := "UN Number Required"
      check := dtf_present (·.un_number)
      fail_reason := "⚠️ UN number is MANDATORY for hazmat documents."
      severity := .hard, category := none }
  , { rule_id := "HAZ_002", name := "Proper Shipping Name Required"
      check := dtf_present (·.shipping_name)
      fail_reason := "Proper shipping name is required."
      severity := .hard, category := none }
  , { rule_id := "HAZ_003", name := "Hazard Class Required"
      check := dtf_present (·.hazard_class)
      fail_reason := "Hazard class is missing."
      severity := .hard, category := none }
  , { rule_id := "HAZ_004", name := "Emergency Contact Required"
      check := dtf_present (·.emergency_contact)
      fail_reason := "⚠️ Emergency contact number is MANDATORY for hazmat."
      severity := .hard, category := none }
  , { rule_id := "HAZ_005", name := "Packing Group Present"
      check := dtf_present (·.packing_group)
      fail_reason := "Packing group (I/II/III) is missing."
      severity := .soft, category := none }
  , { rule_id := "HAZ_006", name := "Shipper Signature Required"
      check := sig_at_least 1
      fail_reason := "Hazmat document requires shipper signature."
      severity := .hard, category := none } ]

def lmp_rules : List Rule :=
  [ { rule_id := "LMP_001", name := "Signature Required"
      check := sig_at_least 1
      fail_reason := "Lumper receipt must be signed."
      severity := .hard, category := none }
  , { rule_id := "LMP_002", name := "Order Number Present"
      check := order_number_check
      fail_reason := "Order/Load number is missing."
      severity := .hard, category := none }
  , { rule_id := "LMP_003", name := "Amount Present"
      check := dtf_present (·.amount)
      fail_reason := "Payment amount is missing."
      severity := .hard, category := none }
  , { rule_id := "LMP_004", name := "Date Present"
      check := dtf_present (·.date)
      fail_reason := "Date is missing on lumper receipt."
      severity := .soft, category := none }
  , { rule_id := "LMP_005", name := "Service Type Present"
      check := dtf_present (·.service_type)
      fail_reason := "Service type (Loading/Unloading) not specified."
      severity := .soft, category := none } ]

def trp_rules : List Rule :=
  [ { rule_id := "TRP_001", name := "Trip Number Present"
      check := dtf_present (·.trip_number)
      fail_reason := "Trip/Load number is missing."
      severity := .hard, category := none }
  , { rule_id := "TRP_002", name := "Driver Name Present"
      check := dtf_present (·.driver_name)
      fail_reason := "Driver name is missing."
      severity := .hard, category := none }
  , { rule_id := "TRP_003", name := "Driver Signature Required"
      check := sig_at_least 1
      fail_reason := "Driver signature is required on trip sheet."
      severity := .hard, category := none }
  , { rule_id := "TRP_004", name := "Mileage Present"
      check := dtf_present (·.total_miles)
      fail_reason := "Total mileage is missing."
      severity := .soft, category := none }
  , { rule_id := "TRP_005", name := "Truck Number Present"
      check := dtf_present (·.truck_number)
      fail_reason := "Truck/Unit number is missing."
      severity := .soft, category := none } ]

def frt_rules : List Rule :=
  [ { rule_id := "FRT_001", name := "PRO Number Present"
      check := dtf_present (·.pro_number)
      fail_reason := "PRO number is missing on freight invoice."
      severity := .hard, category := none }
  , { rule_id := "FRT_002", name := "Order Number Present"
      check := order_number_check
      fail_reason := "Order/Load number is missing."
      severity := .hard, category := none }
  , { rule_id := "FRT_003", name := "Total Charges Present"
      check := dtf_present (·.total_charges)
      fail_reason := "Total charges amount is missing."
      severity := .hard, category := none }
  , { rule_id := "FRT_004", name := "Carrier Name Present"
      check := dtf_present (·.carrier_name)
      fail_reason := "Carrier name is missing."
      severity := .soft, category := none }
  , { rule_id := "FRT_005", name := "Invoice Date Present"
      check := dtf_present (·.invoice_date)
      fail_reason := "Invoice date is missing."
      severity := .soft, category := none } ]

/-- `DOC_SPECIFIC_RULES.get(doc_type, [])`: `UNKNOWN` and a missing
`document_type` key have no entry in the table. -/
def doc_rules_for : Option DocumentType → List Rule
  | some .BILL_OF_LADING => bol_rules
  | some .PROOF_OF_DELIVERY => pod_rules
  | some .COMMERCIAL_INVOICE => inv_rules
  | some .PACKING_LIST => pkg_rules
  | some .HAZMAT_DOCUMENT => haz_rules
  | some .LUMPER_RECEIPT => lmp_rules
  | some .TRIP_SHEET => trp_rules
  | some .FREIGHT_INVOICE => frt_rules
  | some .UNKNOWN => []
  | none => []

-- ============================================
-- RuleValidationEngine
-- ============================================

/-- Replace every occurrence of the 7-character placeholder `\x7bcount\x7d`
in a character list (the argument to `str.format(count=...)`). -/
def replace_count_list (repl : List Char) : List Char → List Char
  | '{' :: 'c' :: 'o' :: 'u' :: 'n' :: 't' :: '}' :: rest => repl ++ replace_count_list repl rest
  | c :: rest => c :: replace_count_list repl rest
  | [] => []

/-- `reason.format(count=doc.get("signature_count", 0))`, applied exactly when
the placeholder occurs (replacement is the identity otherwise, matching the
`if "..." in reason` guard in `_check_rule`). -/
def format_reason (fail_reason : String) (doc : Doc) : String :=
  String.mk (replace_count_list (count_repr doc).data fail_reason.data)

/-- `RuleValidationEngine._check_rule`.  The Python method returns a pair
`(passed, reason)`; we return `none` for `(True, None)` and `some reason`
for `(False, reason)`.  A raising predicate is caught and turned into the
diagnostic reason. -/
def check_rule (rule : Rule) (doc : Doc) : Option String :=
  match rule.check doc with
  | .ok true => none
  | .ok false => some (format_reason rule.fail_reason doc)
  | .error e => some ("Rule check failed: " ++ e)

/-- The three accumulator lists of `validate_document`. -/
structure RunState where
  hard_failures : List Finding
  soft_warnings : List Finding
  passed_rules : List String
deriving DecidableEq

/-- One iteration of the rule-evaluation loop: file the rule under the passed
list, `hard_failures`, or `soft_warnings`. `cat` supplies the finding category
(`rule.get("category", "general")` in the general loop, the literal
`"document_specific"` in the type-specific loop). -/
def run_rule (doc : Doc) (cat : Rule → String) (st : RunState) (rule : Rule) : RunState :=
  match check_rule rule doc with
  | none => { st with passed_rules := st.passed_rules ++ [rule.rule_id] }
  | some reason =>
    let entry : Finding :=
      { rule_id := rule.rule_id, name := rule.name, reason := reason, category := cat rule }
    match rule.severity with
    | .hard => { st with hard_failures := st.hard_failures ++ [entry] }
    | .soft => { st with soft_warnings := st.soft_warnings ++ [entry] }

/-- The rule-evaluation loop over a rule list. -/
def run_rules (doc : Doc) (cat : Rule → String) (st : RunState) (rules : List Rule) : RunState :=
  rules.foldl (run_rule doc cat) st

/-- Category function of the general-rule loop: `rule.get("category", "general")`. -/
def general_category (r : Rule) : String := r.category.getD "general"

/-- `RuleValidationEngine._map_status`. -/
def map_status (status : String) : ValidationStatus :=
  if status = "Pass" then .PASS
  else if status = "Pass with Warnings" then .NEEDS_REVIEW
  else .FAIL

/-- `RuleValidationEngine._build_summary`. -/
def build_summary (status : String) (hard soft : List Finding) : String :=
  if status = "Pass" then
    "✅ All validation rules passed. Document ready for processing."
  else if status = "Pass with Warnings" then
    "⚠️ Document passed with " ++ toString soft.length ++ " warning(s). Review recommended."
  else
    "❌ Document failed " ++ toString hard.length ++ " critical rule(s). Action required."

/-- The dict returned by `validate_document`. -/
structure ValidationResult where
  status : String
  validation_status_enum : ValidationStatus
  hard_failures : List Finding
  soft_warnings : List Finding
  passed_rules : List String
  total_rules_checked : ℕ
  total_passed : ℕ
  total_hard_failures : ℕ
  total_soft_warnings : ℕ
  score : ℚ
  billing_ready : Bool
  needs_manual_review : Bool
  stop_processing : Bool
  summary : String
deriving DecidableEq

/-- `RuleValidationEngine._build_result`. -/
def build_result (status : String) (hard soft : List Finding) (passed : List String)
    (total : ℕ) (stop : Bool) : ValidationResult :=
  { status := status
    validation_status_enum := map_status status
    hard_failures := hard
    soft_warnings := soft
    passed_rules := passed
    total_rules_checked := total
    total_passed := passed.length
    total_hard_failures := hard.length
    total_soft_warnings := soft.length
    score := if 0 < total then py_round ((passed.length : ℚ) / (total : ℚ)) 2 else 0
    billing_ready := status == "Pass"
    needs_manual_review := !hard.isEmpty || !soft.isEmpty
    stop_processing := stop
    summary := build_summary status hard soft }

/-- `RuleValidationEngine.validate_document`: general rules first, then the
short-circuit check, then the document-type-specific rules, then the final
status. -/
def validate_document (doc : Doc) : ValidationResult :=
  let st1 := run_rules doc general_category ⟨[], [], []⟩ general_rules
  if st1.hard_failures = [] then
    let doc_rules := doc_rules_for doc.document_type
    let st2 := run_rules doc (fun _ => "document_specific") st1 doc_rules
    let total := general_rules.length + doc_rules.length
    let status :=
      if st2.hard_failures ≠ [] then "Fail"
      else if st2.soft_warnings ≠ [] then "Pass with Warnings"
      else "Pass"
    build_result status st2.hard_failures st2.soft_warnings st2.passed_rules total false
  else
    build_result "Fail" st1.hard_failures st1.soft_warnings st1.passed_rules
      general_rules.length true

-- ============================================
-- SampleBasedClassifier
-- ============================================

/-- The value `_run_embedding_signal` builds from a similarity match
(`doc_type`, `confidence`, `matched_sample_id`). -/
structure EmbSig where
  doc_type : String
  confidence : ℚ
  matched_sample_id : Option ℤ
deriving DecidableEq

/-- A keyword / vision-model signal result (`ClassificationResult` fields the
orchestrator reads). -/
structure Sig where
  doc_type : String
  confidence : ℚ
deriving DecidableEq

/-- The `WeightedVote` dataclass. -/
structure WeightedVote where
  embedding_vote : Option String := none
  embedding_confidence : ℚ := 0
  keyword_vote : Option String := none
  keyword_confidence : ℚ := 0
  gemini_vote : Option String := none
  gemini_confidence : ℚ := 0
deriving DecidableEq

/-- One entry of the `vote_breakdown` dict. -/
structure VoteEntry where
  vote : Option String
  confidence : ℚ
  weight : ℚ
deriving DecidableEq

/-- The `vote_breakdown` dict. -/
structure VoteBreakdown where
  embedding : VoteEntry
  gemini : VoteEntry
  keyword : VoteEntry
deriving DecidableEq

/-- The dict returned by `_format_result` (and hence by `classify`). -/
structure ClassifyResult where
  doc_type : String
  confidence : ℚ
  confidence_status : String
  method_used : String
  signals_used : List String
  needs_manual_review : Bool
  matched_sample_id : Option ℤ
  vote_breakdown : Option VoteBreakdown
deriving DecidableEq

/-- `round(c, 3) if c else 0` in the vote-breakdown entries. -/
def breakdown_conf (c : ℚ) : ℚ := if c ≠ 0 then py_round c 3 else 0

/-- `SampleBasedClassifier._format_result`.  Note that the returned
`confidence` field is `round(confidence, 4)`. -/
def format_result (doc_type : String) (confidence : ℚ) (method : String)
    (matched_sample_id : Option ℤ) (signals_used : List String)
    (votes : Option WeightedVote) : ClassifyResult :=
  let status :=
    if (75/100 : ℚ) ≤ confidence then "high_confidence"
    else if (50/100 : ℚ) ≤ confidence then "medium_confidence"
    else "needs_review"
  { doc_type := doc_type
    confidence := py_round confidence 4
    confidence_status := status
    method_used := method
    signals_used := signals_used
    needs_manual_review := decide (confidence < 1/2)
    matched_sample_id := matched_sample_id
    vote_breakdown := votes.map (fun v =>
      { embedding := ⟨v.embedding_vote, breakdown_conf v.embedding_confidence, 45/100⟩
        gemini := ⟨v.gemini_vote, breakdown_conf v.gemini_confidence, 35/100⟩
        keyword := ⟨v.keyword_vote, breakdown_conf v.keyword_confidence, 20/100⟩ }) }

/-- `vote_scores[doc_type] = vote_scores.get(doc_type, 0) + weighted_conf`
on an insertion-ordered association list (Python dicts preserve insertion
order and keep a key's position on update). -/
def upsert (l : List (String × ℚ)) (k : String) (v : ℚ) : List (String × ℚ) :=
  if l.any (fun p => p.1 == k) then
    l.map (fun p => if p.1 == k then (p.1, p.2 + v) else p)
  else l ++ [(k, v)]

/-- Python `max(vote_scores, key=vote_scores.get)`: the first entry of
maximal value wins ties. -/
def max_by_value : List (String × ℚ) → String × ℚ
  | [] => ("", 0)
  | p :: rest => rest.foldl (fun best q => if best.2 < q.2 then q else best) p

/-- `SampleBasedClassifier._weighted_voting`. -/
def weighted_voting (votes : WeightedVote) (embedding_result : Option EmbSig) :
    ClassifyResult :=
  let vs0 : List (String × ℚ) := []
  let vs1 :=
    if truthy votes.embedding_vote && decide (0 < votes.embedding_confidence) then
      upsert vs0 (votes.embedding_vote.getD "") (votes.embedding_confidence * (45/100))
    else vs0
  let vs2 :=
    if truthy votes.gemini_vote && decide (0 < votes.gemini_confidence) then
      upsert vs1 (votes.gemini_vote.getD "") (votes.gemini_confidence * (35/100))
    else vs1
  let vs3 :=
    if truthy votes.keyword_vote && decide (0 < votes.keyword_confidence) then
      upsert vs2 (votes.keyword_vote.getD "") (votes.keyword_confidence * (20/100))
    else vs2
  if vs3 = [] then
    format_result "Unknown" 0 "no_signals" none [] (some votes)
  else
    let winner := max_by_value vs3
    let signals :=
      (if truthy votes.embedding_vote then ["embedding"] else []) ++
      (if truthy votes.keyword_vote then ["keyword"] else []) ++
      (if truthy votes.gemini_vote then ["gemini"] else [])
    let method :=
      if 1 < signals.length then "multi_signal_vote"
      else match signals with
        | s :: _ => s
        | [] => "unknown"
    format_result winner.1 winner.2 method
      (embedding_result.bind EmbSig.matched_sample_id) signals (some votes)

/-- `SampleBasedClassifier.classify` from the keyword signal on (after the
embedding early exit was not taken).  Returns the result paired with a flag
recording whether the vision-model (Gemini) signal was invoked. -/
def classify_stage2 (emb : Option EmbSig) (votes1 : WeightedVote)
    (signals1 : List String) (kw gem : Option Sig) : ClassifyResult × Bool :=
  let votes2 :=
    match kw with
    | some k => { votes1 with keyword_vote := some k.doc_type, keyword_confidence := k.confidence }
    | none => votes1
  let signals2 :=
    match kw with
    | some _ => signals1 ++ ["keyword"]
    | none => signals1
  if kw.isSome = true ∧ votes2.embedding_vote = votes2.keyword_vote ∧
      (60/100 : ℚ) ≤ votes2.embedding_confidence ∧
      (55/100 : ℚ) ≤ votes2.keyword_confidence then
    let combined := votes2.embedding_confidence * (7/10) + votes2.keyword_confidence * (3/10)
    (format_result (votes2.embedding_vote.getD "") combined "embedding+keyword_agreed"
      (emb.bind EmbSig.matched_sample_id) signals2 (some votes2), false)
  else
    let gemini_invoked :=
      decide (votes2.embedding_confidence < 72/100) ||
      decide (votes2.keyword_confidence < 55/100)
    let votes3 :=
      if gemini_invoked then
        match gem with
        | some g => { votes2 with gemini_vote := some g.doc_type, gemini_confidence := g.confidence }
        | none => votes2
      else votes2
    (weighted_voting votes3 emb, gemini_invoked)

/-- `SampleBasedClassifier.classify`, parameterized by the outcome of each
signal runner (`none` = the signal abstained: unavailable, no match, or its
exception was caught inside `_run_*_signal`).  The second component records
whether the Gemini (vision-model) signal was invoked. -/
def classify (emb : Option EmbSig) (kw gem : Option Sig) : ClassifyResult × Bool :=
  match emb with
  | some e =>
    let votes1 : WeightedVote :=
      { embedding_vote := some e.doc_type, embedding_confidence := e.confidence }
    if (72/100 : ℚ) ≤ e.confidence then
      (format_result e.doc_type e.confidence "embedding_high_confidence"
        e.matched_sample_id ["embedding"] (some votes1), false)
    else classify_stage2 (some e) votes1 ["embedding"] kw gem
  | none => classify_stage2 none {} [] kw gem

-- ============================================
-- Concrete attribute bags used as witnesses / counterexamples
-- ============================================

/-- An OCR text of 58 characters (clears the 50-character minimum). -/
def sample_text : String :=
  "Shipment received in full with no visible damage to goods."

/-- The empty attribute bag: every key missing. -/
def doc_empty : Doc := {}

/-- An attribute bag that passes every General Rule and has no document type
(hence no type-specific rules). -/
def doc_pass : Doc :=
  { quality_score := some 90
    ocr_text := some (some sample_text)
    classification_confidence := some (9/10)
    is_blurry := some false
    document_date := some "2024-01-15"
    metadata := some (some
      { doc_type_fields := none
        field_extraction_validation :=
          some (some { extraction_score := some (some (8/10)) }) }) }

/-- An attribute bag whose `metadata` key is present with value `None`:
the `GEN_005` and `GEN_006` predicates raise (`None.get(...)`) on it, while
`GEN_001`-`GEN_004` pass. -/
def doc_meta_null : Doc :=
  { quality_score := some 90
    ocr_text := some (some sample_text)
    classification_confidence := some (9/10)
    is_blurry := some false
    metadata := some none }

/-- `doc_pass` with the quality score removed: exactly `GEN_001` fails
(hard), the other five General Rules pass. -/
def doc_no_quality : Doc :=
  { doc_pass with quality_score := none }

-- ============================================
-- Helper lemmas about the rule-evaluation loop
-- ============================================

/-- Total number of list entries accumulated in a `RunState`. -/
def st_count (st : RunState) : ℕ :=
  st.passed_rules.length + st.hard_failures.length + st.soft_warnings.length

theorem st_count_run_rule (doc : Doc) (cat : Rule → String) (st : RunState) (r : Rule) :
    st_count (run_rule doc cat st r) = st_count st + 1 := by
  unfold run_rule
  cases h : check_rule r doc with
  | none => simp [st_count]; omega
  | some reason =>
    cases hs : r.severity <;> simp [st_count] <;> omega

theorem st_count_run_rules (doc : Doc) (cat : Rule → String) :
    ∀ (rules : List Rule) (st : RunState),
      st_count (run_rules doc cat st rules) = st_count st + rules.length
  | [], st => by simp [run_rules]
  | r :: rs, st => by
    simp only [run_rules, List.foldl_cons, List.length_cons]
    have := st_count_run_rules doc cat rs (run_rule doc cat st r)
    simp only [run_rules] at this
    rw [this, st_count_run_rule]
    omega

theorem run_rule_hard_prefix (doc : Doc) (cat : Rule → String) (st : RunState) (r : Rule) :
    ∃ l, (run_rule doc cat st r).hard_failures = st.hard_failures ++ l := by
  unfold run_rule
  cases h : check_rule r doc with
  | none => exact ⟨[], by simp⟩
  | some reason =>
    cases hs : r.severity
    · exact ⟨_, rfl⟩
    · exact ⟨[], by simp⟩

theorem run_rules_hard_prefix (doc : Doc) (cat : Rule → String) :
    ∀ (rules : List Rule) (st : RunState),
      ∃ l, (run_rules doc cat st rules).hard_failures = st.hard_failures ++ l
  | [], st => ⟨[], by simp [run_rules]⟩
  | r :: rs, st => by
    simp only [run_rules, List.foldl_cons]
    obtain ⟨l1, h1⟩ := run_rule_hard_prefix doc cat st r
    obtain ⟨l2, h2⟩ := run_rules_hard_prefix doc cat rs (run_rule doc cat st r)
    simp only [run_rules] at h2
    exact ⟨l1 ++ l2, by rw [h2, h1, List.append_assoc]⟩

theorem run_rules_hard_mono (doc : Doc) (cat : Rule → String) (rules : List Rule)
    (st : RunState) (f : Finding) (h : f ∈ st.hard_failures) :
    f ∈ (run_rules doc cat st rules).hard_failures := by
  obtain ⟨l, hl⟩ := run_rules_hard_prefix doc cat rules st
  rw [hl]
  exact List.mem_append_left _ h

theorem run_rule_hard_ids (doc : Doc) (cat : Rule → String) (st : RunState) (r : Rule)
    (f : Finding) (h : f ∈ (run_rule doc cat st r).hard_failures) :
    f ∈ st.hard_failures ∨ f.rule_id = r.rule_id := by
  unfold run_rule at h
  cases hc : check_rule r doc <;> rw [hc] at h
  · exact Or.inl h
  · cases hs : r.severity <;> rw [hs] at h
    · simp only [List.mem_append, List.mem_singleton] at h
      rcases h with h | h
      · exact Or.inl h
      · exact Or.inr (by rw [h])
    · exact Or.inl h

theorem run_rule_soft_ids (doc : Doc) (cat : Rule → String) (st : RunState) (r : Rule)
    (f : Finding) (h : f ∈ (run_rule doc cat st r).soft_warnings) :
    f ∈ st.soft_warnings ∨ f.rule_id = r.rule_id := by
  unfold run_rule at h
  cases hc : check_rule r doc <;> rw [hc] at h
  · exact Or.inl h
  · cases hs : r.severity <;> rw [hs] at h
    · exact Or.inl h
    · simp only [List.mem_append, List.mem_singleton] at h
      rcases h with h | h
      · exact Or.inl h
      · exact Or.inr (by rw [h])

theorem run_rule_passed_ids (doc : Doc) (cat : Rule → String) (st : RunState) (r : Rule)
    (i : String) (h : i ∈ (run_rule doc cat st r).passed_rules) :
    i ∈ st.passed_rules ∨ i = r.rule_id := by
  unfold run_rule at h
  cases hc : check_rule r doc <;> rw [hc] at h
  · simp only [List.mem_append, List.mem_singleton] at h
    exact h
  · cases hs : r.severity <;> rw [hs] at h <;> exact Or.inl h

theorem run_rules_hard_ids (doc : Doc) (cat : Rule → String) :
    ∀ (rules : List Rule) (st : RunState) (f : Finding),
      f ∈ (run_rules doc cat st rules).hard_failures →
      f ∈ st.hard_failures ∨ f.rule_id ∈ rules.map Rule.rule_id
  | [], st, f => fun h => Or.inl (by simpa [run_rules] using h)
  | r :: rs, st, f => by
    intro h
    simp only [run_rules, List.foldl_cons] at h
    have h2 := run_rules_hard_ids doc cat rs (run_rule doc cat st r) f
      (by simpa [run_rules] using h)
    rcases h2 with h2 | h2
    · rcases run_rule_hard_ids doc cat st r f h2 with h3 | h3
      · exact Or.inl h3
      · exact Or.inr (by simp [h3])
    · exact Or.inr (by simp [h2])

theorem run_rules_soft_ids (doc : Doc) (cat : Rule → String) :
    ∀ (rules : List Rule) (st : RunState) (f : Finding),
      f ∈ (run_rules doc cat st rules).soft_warnings →
      f ∈ st.soft_warnings ∨ f.rule_id ∈ rules.map Rule.rule_id
  | [], st, f => fun h => Or.inl (by simpa [run_rules] using h)
  | r :: rs, st, f => by
    intro h
    simp only [run_rules, List.foldl_cons] at h
    have h2 := run_rules_soft_ids doc cat rs (run_rule doc cat st r) f
      (by simpa [run_rules] using h)
    rcases h2 with h2 | h2
    · rcases run_rule_soft_ids doc cat st r f h2 with h3 | h3
      · exact Or.inl h3
      · exact Or.inr (by simp [h3])
    · exact Or.inr (by simp [h2])

theorem run_rules_passed_ids (doc : Doc) (cat : Rule → String) :
    ∀ (rules : List Rule) (st : RunState) (i : String),
      i ∈ (run_rules doc cat st rules).passed_rules →
      i ∈ st.passed_rules ∨ i ∈ rules.map Rule.rule_id
  | [], st, i => fun h => Or.inl (by simpa [run_rules] using h)
  | r :: rs, st, i => by
    intro h
    simp only [run_rules, List.foldl_cons] at h
    have h2 := run_rules_passed_ids doc cat rs (run_rule doc cat st r) i
      (by simpa [run_rules] using h)
    rcases h2 with h2 | h2
    · rcases run_rule_passed_ids doc cat st r i h2 with h3 | h3
      · exact Or.inl h3
      · exact Or.inr (by simp [h3])
    · exact Or.inr (by simp [h2])

/-- The id of a General Rule never occurs in any document-type-specific rule
table (the two tiers are disjoint). -/
theorem gen_ids_not_doc_ids (dt : Option DocumentType) (i : String)
    (h : i ∈ general_rules.map Rule.rule_id) :
    i ∉ (doc_rules_for dt).map Rule.rule_id := by
  have h6 : i = "GEN_001" ∨ i = "GEN_002" ∨ i = "GEN_003" ∨ i = "GEN_004" ∨
      i = "GEN_005" ∨ i = "GEN_006" := by
    simpa [general_rules, gen_001, gen_002, gen_003, gen_004, gen_005, gen_006]
      using h
  rcases dt with _ | d
  · simp [doc_rules_for]
  · cases d <;>
      rcases h6 with rfl | rfl | rfl | rfl | rfl | rfl <;>
      decide

/-- `validate_document` on the short-circuit path. -/
theorem validate_document_short (doc : Doc)
    (h : (run_rules doc general_category ⟨[], [], []⟩ general_rules).hard_failures ≠ []) :
    validate_document doc =
      build_result "Fail"
        (run_rules doc general_category ⟨[], [], []⟩ general_rules).hard_failures
        (run_rules doc general_category ⟨[], [], []⟩ general_rules).soft_warnings
        (run_rules doc general_category ⟨[], [], []⟩ general_rules).passed_rules
        general_rules.length true := by
  unfold validate_document
  rw [if_neg h]

/-- `validate_document` on the full two-tier path. -/
theorem validate_document_full (doc : Doc)
    (h : (run_rules doc general_category ⟨[], [], []⟩ general_rules).hard_failures = []) :
    validate_document doc =
      build_result
        (if (run_rules doc (fun _ => "document_specific")
              (run_rules doc general_category ⟨[], [], []⟩ general_rules)
              (doc_rules_for doc.document_type)).hard_failures ≠ [] then "Fail"
         else if (run_rules doc (fun _ => "document_specific")
              (run_rules doc general_category ⟨[], [], []⟩ general_rules)
              (doc_rules_for doc.document_type)).soft_warnings ≠ [] then "Pass with Warnings"
         else "Pass")
        (run_rules doc (fun _ => "document_specific")
          (run_rules doc general_category ⟨[], [], []⟩ general_rules)
          (doc_rules_for doc.document_type)).hard_failures
        (run_rules doc (fun _ => "document_specific")
          (run_rules doc general_category ⟨[], [], []⟩ general_rules)
          (doc_rules_for doc.document_type)).soft_warnings
        (run_rules doc (fun _ => "document_specific")
          (run_rules doc general_category ⟨[], [], []⟩ general_rules)
          (doc_rules_for doc.document_type)).passed_rules
        (general_rules.length + (doc_rules_for doc.document_type).length) false := by
  unfold validate_document
  rw [if_pos h]

theorem check_rule_of_ok_false (doc : Doc) (r : Rule) (h : r.check doc = .ok false) :
    check_rule r doc = some (format_reason r.fail_reason doc) := by
  unfold check_rule
  rw [h]

theorem run_rule_fail_hard_mem (doc : Doc) (cat : Rule → String) (st : RunState)
    (r : Rule) (reason : String) (hc : check_rule r doc = some reason)
    (hs : r.severity = .hard) :
    r.rule_id ∈ (run_rule doc cat st r).hard_failures.map Finding.rule_id := by
  unfold run_rule
  rw [hc, hs]
  simp

theorem run_rules_hard_map_mono (doc : Doc) (cat : Rule → String) (rules : List Rule)
    (st : RunState) (i : String) (h : i ∈ st.hard_failures.map Finding.rule_id) :
    i ∈ (run_rules doc cat st rules).hard_failures.map Finding.rule_id := by
  rcases List.mem_map.mp h with ⟨f, hf, rfl⟩
  exact List.mem_map_of_mem _ (run_rules_hard_mono doc cat rules st f hf)

-- ============================================
-- Claims
-- ============================================

/-- Claim C2: if any General Rule with severity hard fails, `validate_document`
returns status "Fail" with `stop_processing = true`, no Document-Type-Specific
rule is evaluated (every finding and every passed id belongs to the General
Rule tier and none belongs to the type-specific tier), and
`total_rules_checked` and `score` are computed over the General Rule set
only. -/
theorem claim2_general_hard_short_circuits (doc : Doc)
    (h : (run_rules doc general_category ⟨[], [], []⟩ general_rules).hard_failures ≠ []) :
    (validate_document doc).status = "Fail" ∧
    (validate_document doc).stop_processing = true ∧
    (validate_document doc).total_rules_checked = general_rules.length ∧
    (∀ f ∈ (validate_document doc).hard_failures,
      f.rule_id ∈ general_rules.map Rule.rule_id ∧
      f.rule_id ∉ (doc_rules_for doc.document_type).map Rule.rule_id) ∧
    (∀ f ∈ (validate_document doc).soft_warnings,
      f.rule_id ∈ general_rules.map Rule.rule_id ∧
      f.rule_id ∉ (doc_rules_for doc.document_type).map Rule.rule_id) ∧
    (∀ i ∈ (validate_document doc).passed_rules,
      i ∈ general_rules.map Rule.rule_id ∧
      i ∉ (doc_rules_for doc.document_type).map Rule.rule_id) ∧
    (validate_document doc).score =
      py_round (((validate_document doc).passed_rules.length : ℚ) /
        (general_rules.length : ℚ)) 2 := by
  rw [validate_document_short doc h]
  refine ⟨rfl, rfl, rfl, ?_, ?_, ?_, ?_⟩
  · intro f hf
    rcases run_rules_hard_ids doc general_category general_rules ⟨[], [], []⟩ f hf with
      h0 | hid
    · simp at h0
    · exact ⟨hid, gen_ids_not_doc_ids _ _ hid⟩
  · intro f hf
    rcases run_rules_soft_ids doc general_category general_rules ⟨[], [], []⟩ f hf with
      h0 | hid
    · simp at h0
    · exact ⟨hid, gen_ids_not_doc_ids _ _ hid⟩
  · intro i hi
    rcases run_rules_passed_ids doc general_category general_rules ⟨[], [], []⟩ i hi with
      h0 | hid
    · simp at h0
    · exact ⟨hid, gen_ids_not_doc_ids _ _ hid⟩
  · simp only [build_result]
    rw [if_pos (by decide : 0 < general_rules.length)]

/-- Witness for C2: the all-missing attribute bag hard-fails General Rules and
short-circuits. -/
theorem claim2_witness :
    ((run_rules doc_empty general_category ⟨[], [], []⟩ general_rules).hard_failures ≠ []) ∧
    (validate_document doc_empty).status = "Fail" ∧
    (validate_document doc_empty).stop_processing = true ∧
    (validate_document doc_empty).total_rules_checked = general_rules.length :=
  ⟨by decide,
   (claim2_general_hard_short_circuits doc_empty (by decide)).1,
   (claim2_general_hard_short_circuits doc_empty (by decide)).2.1,
   (claim2_general_hard_short_circuits doc_empty (by decide)).2.2.1⟩

/-- Claim C3: for every attribute bag, `total_rules_checked` equals
`passed_rules.length + hard_failures.length + soft_warnings.length`, on both
the short-circuited and the full two-tier path. -/
theorem claim3_total_rules_invariant (doc : Doc) :
    (validate_document doc).total_rules_checked =
      (validate_document doc).passed_rules.length +
      (validate_document doc).hard_failures.length +
      (validate_document doc).soft_warnings.length := by
  by_cases h :
    (run_rules doc general_category ⟨[], [], []⟩ general_rules).hard_failures = []
  · rw [validate_document_full doc h]
    have hc2 := st_count_run_rules doc (fun _ => "document_specific")
      (doc_rules_for doc.document_type)
      (run_rules doc general_category ⟨[], [], []⟩ general_rules)
    have hc1 := st_count_run_rules doc general_category general_rules ⟨[], [], []⟩
    simp [st_count, build_result] at hc1 hc2 ⊢
    omega
  · rw [validate_document_short doc h]
    have hc1 := st_count_run_rules doc general_category general_rules ⟨[], [], []⟩
    simp [st_count, build_result] at hc1 ⊢
    omega

/-- Claim C4: if no General Rule hard-fails, `stop_processing` is false and the
final status is "Fail" when `hard_failures` is non-empty, else
"Pass with Warnings" when `soft_warnings` is non-empty, else "Pass". -/
theorem claim4_full_path_status (doc : Doc)
    (h : (run_rules doc general_category ⟨[], [], []⟩ general_rules).hard_failures = []) :
    (validate_document doc).stop_processing = false ∧
    (validate_document doc).status =
      (if (validate_document doc).hard_failures ≠ [] then "Fail"
       else if (validate_document doc).soft_warnings ≠ [] then "Pass with Warnings"
       else "Pass") := by
  rw [validate_document_full doc h]
  exact ⟨rfl, rfl⟩

/-- Witness for C4: an attribute bag passing every General Rule takes the full
path with `stop_processing = false`. -/
theorem claim4_witness :
    (run_rules doc_pass general_category ⟨[], [], []⟩ general_rules).hard_failures = [] ∧
    (validate_document doc_pass).stop_processing = false ∧
    (validate_document doc_pass).status =
      (if (validate_document doc_pass).hard_failures ≠ [] then "Fail"
       else if (validate_document doc_pass).soft_warnings ≠ [] then "Pass with Warnings"
       else "Pass") :=
  ⟨by decide,
   (claim4_full_path_status doc_pass (by decide)).1,
   (claim4_full_path_status doc_pass (by decide)).2⟩

/-- Counterexample for C5: on `doc_meta_null` the `GEN_005` predicate raises
(`metadata` is a present `None`), the exception is caught and turned into the
diagnostic reason, but since `GEN_005` has severity soft the finding lands in
`soft_warnings` — `hard_failures` stays empty, refuting "converted into a
hard failure". -/
theorem claim5_counterexample :
    gen_005.check doc_meta_null = .error "NoneType object has no attribute get" ∧
    check_rule gen_005 doc_meta_null =
      some "Rule check failed: NoneType object has no attribute get" ∧
    (validate_document doc_meta_null).hard_failures = [] ∧
    (validate_document doc_meta_null).soft_warnings.map Finding.rule_id =
      ["GEN_005", "GEN_006"] :=
  ⟨rfl, rfl, by decide, by decide⟩

/-- Claim C5 (amended): a rule whose predicate raises is caught per-rule and
converted into a failing finding with reason "Rule check failed: <detail>",
filed under `hard_failures` when the rule's severity is hard and under
`soft_warnings` when it is soft; evaluation of all subsequent rules
continues. -/
theorem claim5_predicate_fault_caught (doc : Doc) (cat : Rule → String)
    (st : RunState) (pre post : List Rule) (r : Rule) (e : String)
    (h : r.check doc = .error e) :
    run_rules doc cat st (pre ++ r :: post) =
      run_rules doc cat
        (match r.severity with
         | .hard =>
           { run_rules doc cat st pre with
             hard_failures := (run_rules doc cat st pre).hard_failures ++
               [⟨r.rule_id, r.name, "Rule check failed: " ++ e, cat r⟩] }
         | .soft =>
           { run_rules doc cat st pre with
             soft_warnings := (run_rules doc cat st pre).soft_warnings ++
               [⟨r.rule_id, r.name, "Rule check failed: " ++ e, cat r⟩] })
        post := by
  have hsplit : run_rules doc cat st (pre ++ r :: post) =
      run_rules doc cat (run_rule doc cat (run_rules doc cat st pre) r) post := by
    simp [run_rules, List.foldl_append]
  rw [hsplit]
  congr 1
  unfold run_rule
  rw [show check_rule r doc = some ("Rule check failed: " ++ e) from by
    unfold check_rule; rw [h]]

/-- Witness for C5 (amended): instantiated at `doc_meta_null` with the raising
soft rule `GEN_005` in the middle of the General Rule list. -/
theorem claim5_witness :
    run_rules doc_meta_null general_category ⟨[], [], []⟩
        ([gen_001, gen_002, gen_003, gen_004] ++ gen_005 :: [gen_006]) =
      run_rules doc_meta_null general_category
        (match gen_005.severity with
         | .hard =>
           { run_rules doc_meta_null general_category ⟨[], [], []⟩
               [gen_001, gen_002, gen_003, gen_004] with
             hard_failures := (run_rules doc_meta_null general_category ⟨[], [], []⟩
               [gen_001, gen_002, gen_003, gen_004]).hard_failures ++
               [⟨gen_005.rule_id, gen_005.name,
                 "Rule check failed: " ++ "NoneType object has no attribute get",
                 general_category gen_005⟩] }
         | .soft =>
           { run_rules doc_meta_null general_category ⟨[], [], []⟩
               [gen_001, gen_002, gen_003, gen_004] with
             soft_warnings := (run_rules doc_meta_null general_category ⟨[], [], []⟩
               [gen_001, gen_002, gen_003, gen_004]).soft_warnings ++
               [⟨gen_005.rule_id, gen_005.name,
                 "Rule check failed: " ++ "NoneType object has no attribute get",
                 general_category gen_005⟩] })
        [gen_006] :=
  claim5_predicate_fault_caught doc_meta_null general_category ⟨[], [], []⟩
    [gen_001, gen_002, gen_003, gen_004] [gen_006] gen_005
    "NoneType object has no attribute get" rfl

/-- Claim C9 (amended): the score is `round(passed/total, 2)` — the ratio of
passed rules to total rules checked rounded half-even to two decimal places
(the guard "0 when total is 0" is unreachable since the General Rule set is
non-empty). -/
theorem claim9_score_rounded (doc : Doc) :
    (validate_document doc).score =
      py_round (((validate_document doc).passed_rules.length : ℚ) /
        ((validate_document doc).total_rules_checked : ℚ)) 2 := by
  by_cases h :
    (run_rules doc general_category ⟨[], [], []⟩ general_rules).hard_failures = []
  · rw [validate_document_full doc h]
    simp only [build_result]
    rw [if_pos (show 0 < general_rules.length + (doc_rules_for doc.document_type).length
      by have : general_rules.length = 6 := rfl; omega)]
  · rw [validate_document_short doc h]
    simp only [build_result]
    rw [if_pos (by decide : 0 < general_rules.length)]

/-- Counterexample for C9: a bag passing 5 of the 6 General Rules and
hard-failing `GEN_001` gets score `round(5/6, 2) = 0.83`, not the exact
rational `5/6` the claim requires. -/
theorem claim9_counterexample :
    (validate_document doc_no_quality).passed_rules.length = 5 ∧
    (validate_document doc_no_quality).total_rules_checked = 6 ∧
    (validate_document doc_no_quality).score = 83/100 ∧
    (validate_document doc_no_quality).score ≠ 5/6 := by
  refine ⟨by decide, by decide, by decide, by decide⟩

/-- Claim C10: a missing-or-null `quality_score` makes `GEN_001` fail hard
(None is coerced to 0, below the 55 threshold), and a missing-or-null
`classification_confidence` makes `GEN_003` fail hard; either way
`validate_document` returns status "Fail" with `stop_processing = true`. -/
theorem claim10_null_scores_fail_hard (doc : Doc) :
    (doc.quality_score = none →
      "GEN_001" ∈ (validate_document doc).hard_failures.map Finding.rule_id ∧
      (validate_document doc).status = "Fail" ∧
      (validate_document doc).stop_processing = true) ∧
    (doc.classification_confidence = none →
      "GEN_003" ∈ (validate_document doc).hard_failures.map Finding.rule_id ∧
      (validate_document doc).status = "Fail" ∧
      (validate_document doc).stop_processing = true) := by
  constructor
  · intro hq
    have hfalse : gen_001.check doc = .ok false := by
      show Except.ok (decide ((55 : ℚ) ≤ doc.quality_score.getD 0)) = Except.ok false
      rw [hq]
      exact congrArg Except.ok (by decide)
    have hc := check_rule_of_ok_false doc gen_001 hfalse
    have hmem1 : "GEN_001" ∈
        (run_rule doc general_category ⟨[], [], []⟩ gen_001).hard_failures.map
          Finding.rule_id :=
      run_rule_fail_hard_mem doc general_category ⟨[], [], []⟩ gen_001 _ hc rfl
    have hmem : "GEN_001" ∈
        (run_rules doc general_category ⟨[], [], []⟩ general_rules).hard_failures.map
          Finding.rule_id := by
      have hsplit : run_rules doc general_category ⟨[], [], []⟩ general_rules =
          run_rules doc general_category
            (run_rule doc general_category ⟨[], [], []⟩ gen_001)
            [gen_002, gen_003, gen_004, gen_005, gen_006] := rfl
      rw [hsplit]
      exact run_rules_hard_map_mono doc general_category _ _ _ hmem1
    have hne : (run_rules doc general_category ⟨[], [], []⟩ general_rules).hard_failures ≠ [] := by
      intro h0
      rw [h0] at hmem
      simp at hmem
    rw [validate_document_short doc hne]
    exact ⟨hmem, rfl, rfl⟩
  · intro hcc
    have hfalse : gen_003.check doc = .ok false := by
      show Except.ok (decide ((1/2 : ℚ) ≤ doc.classification_confidence.getD 0)) =
        Except.ok false
      rw [hcc]
      exact congrArg Except.ok (by decide)
    have hc := check_rule_of_ok_false doc gen_003 hfalse
    have hmem1 : "GEN_003" ∈
        (run_rule doc general_category
          (run_rule doc general_category
            (run_rule doc general_category ⟨[], [], []⟩ gen_001) gen_002)
          gen_003).hard_failures.map Finding.rule_id :=
      run_rule_fail_hard_mem doc general_category _ gen_003 _ hc rfl
    have hmem : "GEN_003" ∈
        (run_rules doc general_category ⟨[], [], []⟩ general_rules).hard_failures.map
          Finding.rule_id := by
      have hsplit : run_rules doc general_category ⟨[], [], []⟩ general_rules =
          run_rules doc general_category
            (run_rule doc general_category
              (run_rule doc general_category
                (run_rule doc general_category ⟨[], [], []⟩ gen_001) gen_002)
              gen_003)
            [gen_004, gen_005, gen_006] := rfl
      rw [hsplit]
      exact run_rules_hard_map_mono doc general_category _ _ _ hmem1
    have hne : (run_rules doc general_category ⟨[], [], []⟩ general_rules).hard_failures ≠ [] := by
      intro h0
      rw [h0] at hmem
      simp at hmem
    rw [validate_document_short doc hne]
    exact ⟨hmem, rfl, rfl⟩

/-- Witness for C10: the empty bag has both `quality_score` and
`classification_confidence` missing; both hard failures appear and
processing stops. -/
theorem claim10_witness :
    ("GEN_001" ∈ (validate_document doc_empty).hard_failures.map Finding.rule_id ∧
      (validate_document doc_empty).status = "Fail" ∧
      (validate_document doc_empty).stop_processing = true) ∧
    ("GEN_003" ∈ (validate_document doc_empty).hard_failures.map Finding.rule_id ∧
      (validate_document doc_empty).status = "Fail" ∧
      (validate_document doc_empty).stop_processing = true) :=
  ⟨(claim10_null_scores_fail_hard doc_empty).1 rfl,
   (claim10_null_scores_fail_hard doc_empty).2 rfl⟩

/-- Claim C1: when exactly one signal votes (here: only the keyword signal,
with confidence 0.5), `classify` returns confidence 0.10 — the signal's
confidence multiplied by its fixed 0.20 voting weight — with method
"keyword", instead of the signal's own reported confidence 0.5 that the spec
requires.  This evaluates the code at the failing input of the acknowledged
weighting bug (spec §9 "Open question"). -/
theorem claim1_single_signal_down_weighted :
    (classify none (some ⟨"Bill of Lading", 1/2⟩) none).1.doc_type = "Bill of Lading" ∧
    (classify none (some ⟨"Bill of Lading", 1/2⟩) none).1.method_used = "keyword" ∧
    (classify none (some ⟨"Bill of Lading", 1/2⟩) none).1.confidence = 1/10 ∧
    (classify none (some ⟨"Bill of Lading", 1/2⟩) none).1.confidence ≠ 1/2 := by
  refine ⟨by decide, by decide, by decide, by decide⟩

/-- Claim C6 (amended): if the embedding signal's confidence is ≥ 0.72,
`classify` returns immediately with the embedding winner, confidence equal to
the embedding confidence rounded to 4 decimal places (Python `round`), method
"embedding_high_confidence", and the vision-model (Gemini) signal is never
invoked. -/
theorem claim6_embedding_early_exit (e : EmbSig) (kw gem : Option Sig)
    (h : (72/100 : ℚ) ≤ e.confidence) :
    (classify (some e) kw gem).1.doc_type = e.doc_type ∧
    (classify (some e) kw gem).1.confidence = py_round e.confidence 4 ∧
    (classify (some e) kw gem).1.method_used = "embedding_high_confidence" ∧
    (classify (some e) kw gem).2 = false := by
  simp only [classify]
  rw [if_pos h]
  exact ⟨rfl, rfl, rfl, rfl⟩

/-- Witness for C6: a concrete embedding result of confidence 0.8 with
concrete other signals present. -/
theorem claim6_witness :
    (72/100 : ℚ) ≤ (0.8 : ℚ) ∧
    (classify (some ⟨"Bill of Lading", 0.8, some 7⟩)
      (some ⟨"Packing List", 0.9⟩) (some ⟨"Trip Sheet", 0.9⟩)).1.doc_type =
        "Bill of Lading" ∧
    (classify (some ⟨"Bill of Lading", 0.8, some 7⟩)
      (some ⟨"Packing List", 0.9⟩) (some ⟨"Trip Sheet", 0.9⟩)).1.confidence =
        py_round (0.8 : ℚ) 4 ∧
    (classify (some ⟨"Bill of Lading", 0.8, some 7⟩)
      (some ⟨"Packing List", 0.9⟩) (some ⟨"Trip Sheet", 0.9⟩)).1.method_used =
        "embedding_high_confidence" ∧
    (classify (some ⟨"Bill of Lading", 0.8, some 7⟩)
      (some ⟨"Packing List", 0.9⟩) (some ⟨"Trip Sheet", 0.9⟩)).2 = false :=
  ⟨by decide,
   (claim6_embedding_early_exit ⟨"Bill of Lading", 0.8, some 7⟩
     (some ⟨"Packing List", 0.9⟩) (some ⟨"Trip Sheet", 0.9⟩) (by decide)).1,
   (claim6_embedding_early_exit ⟨"Bill of Lading", 0.8, some 7⟩
     (some ⟨"Packing List", 0.9⟩) (some ⟨"Trip Sheet", 0.9⟩) (by decide)).2.1,
   (claim6_embedding_early_exit ⟨"Bill of Lading", 0.8, some 7⟩
     (some ⟨"Packing List", 0.9⟩) (some ⟨"Trip Sheet", 0.9⟩) (by decide)).2.2.1,
   (claim6_embedding_early_exit ⟨"Bill of Lading", 0.8, some 7⟩
     (some ⟨"Packing List", 0.9⟩) (some ⟨"Trip Sheet", 0.9⟩) (by decide)).2.2.2⟩

/-- Counterexample for C6 as stated: at embedding confidence 0.723456 (≥ 0.72)
the returned confidence is `round(0.723456, 4) = 0.7235`, not the embedding
confidence itself. -/
theorem claim6_counterexample :
    (72/100 : ℚ) ≤ (723456/1000000 : ℚ) ∧
    (classify (some ⟨"Bill of Lading", 723456/1000000, none⟩) none none).1.confidence =
      7235/10000 ∧
    (classify (some ⟨"Bill of Lading", 723456/1000000, none⟩) none none).1.confidence ≠
      723456/1000000 := by
  refine ⟨by decide, by decide, by decide⟩

/-- Claim C7 (amended): if the embedding winner has confidence in
[0.60, 0.72) — below 0.72, otherwise early exit A fires first — and the
keyword winner names the same type with confidence ≥ 0.55, `classify` returns
immediately with that type, confidence `round(0.7·emb + 0.3·kw, 4)`, method
"embedding+keyword_agreed", and the vision-model signal is not invoked. -/
theorem claim7_agreement_early_exit (e : EmbSig) (k : Sig) (gem : Option Sig)
    (h1 : e.confidence < 72/100) (h2 : (60/100 : ℚ) ≤ e.confidence)
    (h3 : k.doc_type = e.doc_type) (h4 : (55/100 : ℚ) ≤ k.confidence) :
    (classify (some e) (some k) gem).1.doc_type = e.doc_type ∧
    (classify (some e) (some k) gem).1.confidence =
      py_round (e.confidence * (7/10) + k.confidence * (3/10)) 4 ∧
    (classify (some e) (some k) gem).1.method_used = "embedding+keyword_agreed" ∧
    (classify (some e) (some k) gem).2 = false := by
  simp only [classify]
  rw [if_neg (not_le.mpr h1)]
  simp only [classify_stage2]
  rw [if_pos (show (some k).isSome = true ∧ some e.doc_type = some k.doc_type ∧
      (60/100 : ℚ) ≤ e.confidence ∧ (55/100 : ℚ) ≤ k.confidence from
    ⟨rfl, by rw [h3], h2, h4⟩)]
  exact ⟨rfl, rfl, rfl, rfl⟩

/-- Witness for C7: embedding (0.65) and keyword (0.6) agree on the same
type. -/
theorem claim7_witness :
    (classify (some ⟨"Packing List", 0.65, none⟩) (some ⟨"Packing List", 0.6⟩)
      (some ⟨"Trip Sheet", 0.9⟩)).1.doc_type = "Packing List" ∧
    (classify (some ⟨"Packing List", 0.65, none⟩) (some ⟨"Packing List", 0.6⟩)
      (some ⟨"Trip Sheet", 0.9⟩)).1.confidence =
        py_round ((0.65 : ℚ) * (7/10) + (0.6 : ℚ) * (3/10)) 4 ∧
    (classify (some ⟨"Packing List", 0.65, none⟩) (some ⟨"Packing List", 0.6⟩)
      (some ⟨"Trip Sheet", 0.9⟩)).1.method_used = "embedding+keyword_agreed" ∧
    (classify (some ⟨"Packing List", 0.65, none⟩) (some ⟨"Packing List", 0.6⟩)
      (some ⟨"Trip Sheet", 0.9⟩)).2 = false :=
  claim7_agreement_early_exit ⟨"Packing List", 0.65, none⟩ ⟨"Packing List", 0.6⟩
    (some ⟨"Trip Sheet", 0.9⟩) (by decide) (by decide) rfl (by decide)

/-- Counterexample for C7 as stated: (a) with an agreeing keyword signal but
embedding confidence 0.8 ≥ 0.72, early exit A takes precedence — the method is
"embedding_high_confidence" and the confidence is 0.8, not the claimed
combination; (b) even below 0.72 the returned confidence is the combination
rounded to 4 decimal places, not the exact combination. -/
theorem claim7_counterexample :
    ((classify (some ⟨"Bill of Lading", 0.8, none⟩) (some ⟨"Bill of Lading", 0.6⟩)
        none).1.method_used = "embedding_high_confidence" ∧
     (classify (some ⟨"Bill of Lading", 0.8, none⟩) (some ⟨"Bill of Lading", 0.6⟩)
        none).1.confidence ≠ (0.8 : ℚ) * (7/10) + (0.6 : ℚ) * (3/10)) ∧
    ((classify (some ⟨"Bill of Lading", 61231/100000, none⟩)
        (some ⟨"Bill of Lading", 0.56⟩) none).1.method_used =
          "embedding+keyword_agreed" ∧
     (classify (some ⟨"Bill of Lading", 61231/100000, none⟩)
        (some ⟨"Bill of Lading", 0.56⟩) none).1.confidence ≠
          (61231/100000 : ℚ) * (7/10) + (0.56 : ℚ) * (3/10)) := by
  refine ⟨⟨by decide, by decide⟩, ⟨by decide, by decide⟩⟩

/-- Claim C8: when all three signals abstain, `classify` returns
doc_type "Unknown", confidence 0.0 and method "no_signals".  (`classify` and
the signal runners are total: each runner catches its own exceptions and
abstains, so no exception reaches the caller.) -/
theorem claim8_no_signals_unknown :
    (classify none none none).1.doc_type = "Unknown" ∧
    (classify none none none).1.confidence = 0 ∧
    (classify none none none).1.method_used = "no_signals" := by
  refine ⟨by decide, by decide, by decide⟩

end HackPersonal
